import Mathlib

set_option autoImplicit false

/-!
# Verification of the bqwrite-test pipeline

Shallow embedding of the `bqwrite-test` command-line application.  The
repository carries two revisions of the program: v0.1.0 (`main.go` plus
`table-data.go`) and v0.2.2 (a later `main.go`, here the unnamed source file),
which share `table-data.go` verbatim.  Where the two revisions differ
(delete-error handling, streamer shutdown, worker-queue sizing) both are
embedded, suffixed `_v010` and `_v022`.

External effects (BigQuery metadata calls, the streaming client's `Write`,
the wall clock, `ctx.Done()`) are inputs to the embedded functions; the
observable behaviour (records sent on the generator channel, actions of the
provisioner, records forwarded to `Write`, resource shutdown, exit path) is
the output.
-/

/-- Go `error` values returned by the external calls, identified by message. -/
abbrev Err := String

/-- Embedding of Go `time.Time` restricted to what the program reads from it:
the calendar fields of `time.Now().In(UTC)`. -/
structure DateTime where
  year : Nat
  month : Nat
  day : Nat
  hour : Nat
  minute : Nat
  second : Nat
  deriving DecidableEq, Repr, Inhabited

/-- The field ranges Go's `time.Time` maintains (4-digit years in practice):
the domain on which the timestamp-formatting embedding is faithful. -/
def DateTime.valid (t : DateTime) : Prop :=
  t.year < 10000 ∧ 1 ≤ t.month ∧ t.month ≤ 12 ∧ 1 ≤ t.day ∧ t.day ≤ 31 ∧
    t.hour < 24 ∧ t.minute < 60 ∧ t.second < 60

instance (t : DateTime) : Decidable t.valid := by
  unfold DateTime.valid; infer_instance

/-- `bigquery.Value` cells as produced by `tableDataRecord.Save`. -/
inductive BQValue where
  | str (s : String)
  | int (n : Int)
  deriving DecidableEq, Repr

/-- BigQuery field types appearing in the schema (`table-data.go` lines 26-39). -/
inductive FieldType where
  | string
  | integer
  | dateTime
  deriving DecidableEq, Repr

/-- Embedding of `tableDataBigQuerySchema` (`table-data.go` lines 26-39):
three columns `name: STRING`, `uuid: INTEGER`, `create_time: DATETIME`. -/
def tableDataBigQuerySchema : List (String × FieldType) :=
  [("name", .string), ("uuid", .integer), ("create_time", .dateTime)]

/-- Embedding of `tableDataRecord` (`table-data.go` lines 43-47). -/
structure tableDataRecord where
  name : String
  uuid : Int
  create_time : DateTime
  deriving DecidableEq, Repr, Inhabited

/-- Embedding of `NewTableData` (`table-data.go` lines 71-77). -/
def NewTableData (name : String) (uuid : Int) (create_time : DateTime) :
    tableDataRecord :=
  { name := name, uuid := uuid, create_time := create_time }

/-- Embedding of `randomNames` (`table-data.go` lines 80-81), a pool of 12. -/
def randomNames : List String :=
  ["Louis Green", "Skyla Morrison", "Annalise Rosario", "Francisco Cole",
   "Aron Downs", "Alvin Buck", "Fletcher Clarke", "Sophie Salazar",
   "Kaleigh Hughes", "Winston Mason", "Braelyn Ho", "Finley Gibson"]

/-- The record built at loop index `i` of `newGenerator` (`table-data.go`
lines 90-94): `gen(randomNames[i%len(randomNames)], int64(i)*42,
time.Now().In(loc))` with `gen := NewTableData` and `now i` the wall clock
read at iteration `i`. -/
def tableDataFor (now : Nat → DateTime) (i : Nat) : tableDataRecord :=
  NewTableData (randomNames.getD (i % randomNames.length) "") ((i : Int) * 42)
    (now i)

/-- Observable behaviour of the channel returned by `newGenerator`: the
records sent on it, in order, and whether it was closed.  The producer
goroutine runs `defer close(ch)`, so whenever the goroutine ends (normal
completion or cancellation) the channel is closed. -/
structure GenOutput where
  emitted : List tableDataRecord
  closed : Bool
  deriving DecidableEq, Repr

/-- The `for` loop of `newGenerator` (`table-data.go` lines 89-101), started
at index `i` with `n` iterations remaining.  `done i = true` means the
`select` at emission attempt `i` observes `ctx.Done()` first, in which case
the goroutine returns without sending record `i`. -/
def genLoop (done : Nat → Bool) (now : Nat → DateTime) :
    Nat → Nat → List tableDataRecord
  | _, 0 => []
  | i, n + 1 =>
    if done i then []
    else tableDataFor now i :: genLoop done now (i + 1) n

/-- Embedding of `newGenerator` (`table-data.go` lines 84-104). -/
def newGenerator (done : Nat → Bool) (now : Nat → DateTime)
    (iterations : Nat) : GenOutput :=
  { emitted := genLoop done now 0 iterations, closed := true }

/-- The done signal both drivers hand to `newGenerator`: `ctx` is
`context.Background()` (`main.go` line 113, v0.2.2 line 119) and neither
revision ever builds a cancelable context, so the signal never fires. -/
def backgroundDone : Nat → Bool := fun _ => false

-- Sanity checks on small inputs.
example : (newGenerator backgroundDone (fun _ => default) 2).emitted =
    [⟨"Louis Green", 0, default⟩, ⟨"Skyla Morrison", 42, default⟩] := by
  decide
example : (newGenerator backgroundDone (fun _ => default) 0).emitted = [] := by
  decide

/-! ## Generator lemmas -/

theorem genLoop_background (now : Nat → DateTime) :
    ∀ n i, genLoop backgroundDone now i n =
      (List.range' i n).map (tableDataFor now) := by
  intro n
  induction n with
  | zero => intro i; simp [genLoop]
  | succ m ih =>
    intro i
    simp [genLoop, backgroundDone, List.range'_succ, ih]

theorem genLoop_length_le (done : Nat → Bool) (now : Nat → DateTime) :
    ∀ n i, (genLoop done now i n).length ≤ n := by
  intro n
  induction n with
  | zero => intro i; simp [genLoop]
  | succ m ih =>
    intro i
    by_cases h : done i
    · simp [genLoop, h]
    · simp only [genLoop, h]
      simpa using ih (i + 1)

theorem genLoop_getD (done : Nat → Bool) (now : Nat → DateTime) :
    ∀ n i j, j < (genLoop done now i n).length →
      (genLoop done now i n).getD j default = tableDataFor now (i + j) := by
  intro n
  induction n with
  | zero => intro i j h; simp [genLoop] at h
  | succ m ih =>
    intro i j h
    by_cases hd : done i
    · simp [genLoop, hd] at h
    · have hgl : genLoop done now i (m + 1) =
          tableDataFor now i :: genLoop done now (i + 1) m := by
        simp [genLoop, hd]
      rw [hgl] at h ⊢
      match j with
      | 0 => simp
      | j + 1 =>
        rw [List.length_cons] at h
        have h2 : j < (genLoop done now (i + 1) m).length := by omega
        rw [List.getD_cons_succ, ih (i + 1) j h2]
        congr 1
        omega

theorem genLoop_stops (done : Nat → Bool) (now : Nat → DateTime) (k : Nat)
    (hk : done k = true) :
    ∀ n i, i ≤ k → (genLoop done now i n).length ≤ k - i := by
  intro n
  induction n with
  | zero => intro i _; simp [genLoop]
  | succ m ih =>
    intro i hi
    by_cases hd : done i
    · simp [genLoop, hd]
    · have hne : i ≠ k := fun h => hd (h ▸ hk)
      have hi1 : i + 1 ≤ k := by omega
      have := ih (i + 1) hi1
      have hgl : genLoop done now i (m + 1) =
          tableDataFor now i :: genLoop done now (i + 1) m := by
        simp [genLoop, hd]
      rw [hgl, List.length_cons]
      omega

/-! ## The drain loop of the Stream Driver -/

/-- Embedding of the drain loop `for data := range ch { err = Write(data); if
err != nil ... ; count++ }` (v0.2.2 lines 219-231; v0.1.0 `main.go` lines
153-166).  `write` is the external streaming client's `Write` entry point.
Returns the records forwarded to `Write` in order, the final success count,
and the first write error if any (on which the loop body aborts before
incrementing the count or reading the next record). -/
def streamLoop (write : tableDataRecord → Option Err) :
    List tableDataRecord → List tableDataRecord × Nat × Option Err
  | [] => ([], 0, none)
  | d :: rest =>
    match write d with
    | some e => ([d], 0, some e)
    | none =>
      let r := streamLoop write rest
      (d :: r.1, r.2.1 + 1, r.2.2)

theorem streamLoop_append_ok (write : tableDataRecord → Option Err)
    (l1 l2 : List tableDataRecord) (h : ∀ d ∈ l1, write d = none) :
    streamLoop write (l1 ++ l2) =
      (l1 ++ (streamLoop write l2).1,
       l1.length + (streamLoop write l2).2.1,
       (streamLoop write l2).2.2) := by
  induction l1 with
  | nil => simp
  | cons d rest ih =>
    have hd : write d = none := h d (by simp)
    have hrest : ∀ x ∈ rest, write x = none := fun x hx => h x (by simp [hx])
    simp only [List.cons_append, streamLoop, hd, List.append_eq]
    rw [ih hrest]
    simp only [Prod.mk.injEq, List.cons_append, List.length_cons, true_and,
      and_true]
    omega

theorem streamLoop_fail_head (write : tableDataRecord → Option Err)
    (d : tableDataRecord) (l : List tableDataRecord) (e : Err)
    (h : write d = some e) :
    streamLoop write (d :: l) = ([d], 0, some e) := by
  simp [streamLoop, h]

/-! ## Table provisioner -/

/-- Result of the `table.Metadata(ctx)` call: a 404 from the backend, some
other error, or success (`tableMetaData != nil`). -/
inductive MetaResult where
  | notFound
  | otherError (e : Err)
  | found
  deriving DecidableEq, Repr

/-- Observable actions of `CreateBigQueryTable`, in program order. -/
inductive PAction where
  | deleteTable
  | sleepMinutes (n : Nat)
  | createTable (schema : List (String × FieldType))
  deriving DecidableEq, Repr

/-- How a call or run ends: normal return, an error return, or `os.Exit`. -/
inductive Outcome where
  | ok
  | err (e : Err)
  | exited (code : Nat)
  deriving DecidableEq, Repr

/-- Results of the external BigQuery calls consumed by
`CreateBigQueryTable`: the metadata fetch, and the outcomes `table.Delete`
and `table.Create` would return if invoked. -/
structure ProvEnv where
  metaResult : MetaResult
  deleteResult : Option Err
  createResult : Option Err
  deriving DecidableEq, Repr

/-- The final `if createTable` block shared by both revisions (v0.2.2 lines
177-186; v0.1.0 lines 201-210): create the table with the fixed schema, and
on success sleep 10 minutes for eventual consistency. -/
def createPhase (env : ProvEnv) : List PAction × Outcome :=
  match env.createResult with
  | some e => ([.createTable tableDataBigQuerySchema], .err e)
  | none => ([.createTable tableDataBigQuerySchema, .sleepMinutes 10], .ok)

/-- Embedding of `CreateBigQueryTable`, v0.2.2 (unnamed file lines 145-189).
A delete failure logs the error and calls `os.Exit(1)`. -/
def CreateBigQueryTable_v022 (overwrite : Bool) (env : ProvEnv) :
    List PAction × Outcome :=
  match env.metaResult with
  | .otherError e => ([], .err e)
  | .notFound => createPhase env
  | .found =>
    if overwrite then
      match env.deleteResult with
      | some _ => ([.deleteTable], .exited 1)
      | none =>
        let c := createPhase env
        (.deleteTable :: .sleepMinutes 10 :: c.1, c.2)
    else ([], .ok)

/-- Embedding of `CreateBigQueryTable`, v0.1.0 (`main.go` lines 173-213).
The return value of `table.Delete(ctx)` is discarded, so the function
behaves identically whether the delete succeeded or failed. -/
def CreateBigQueryTable_v010 (overwrite : Bool) (env : ProvEnv) :
    List PAction × Outcome :=
  match env.metaResult with
  | .otherError e => ([], .err e)
  | .notFound => createPhase env
  | .found =>
    if overwrite then
      let c := createPhase env
      (.deleteTable :: .sleepMinutes 10 :: c.1, c.2)
    else ([], .ok)

/-! ## CLI flag validation -/

/-- Result of the validation block at the top of `main`. -/
inductive FlagCheck where
  | usageExit (code : Nat)
  | proceed
  deriving DecidableEq, Repr

/-- Embedding of the flag-validation block of `main`, identical in both
revisions (v0.1.0 `main.go` lines 73-94; v0.2.2 lines 74-95).  The
`targetProject` flag (`-p`), though bound and documented "(Required)", is
never checked there. -/
def validateFlags (targetProject targetDataset : String)
    (numberWorkers numberIterations batchSize : Int) : FlagCheck :=
  if targetDataset = "" then .usageExit 1
  else if numberWorkers < 1 ∨ numberWorkers > 100 then .usageExit 1
  else if numberIterations < 1 ∨ numberIterations > 100000000 then .usageExit 1
  else if batchSize < 1 ∨ batchSize > 50000 then .usageExit 1
  else .proceed

/-! ## Worker queue sizing -/

/-- Embedding of `CalculateWorkerQueueSize`, v0.2.2 (unnamed file lines
242-251). -/
def CalculateWorkerQueueSize (batchSize : Int) : Int :=
  if batchSize ≥ 500 then 100
  else if batchSize ≥ 200 then 50
  else if batchSize ≥ 50 then 10
  else 1

/-- v0.1.0 passes the batch size itself as `WorkerQueueSize`
(`main.go` line 134). -/
def workerQueueSize_v010 (batchSize : Int) : Int := batchSize

/-! ## Row serialization (`tableDataRecord.Save`) -/

/-- Two-digit zero-padded decimal, as Go's layout components `01`, `02`,
`15`, `04`, `05` render the in-range calendar fields. -/
def pad2 (n : Nat) : List Char :=
  [Nat.digitChar (n / 10 % 10), Nat.digitChar (n % 10)]

/-- Four-digit zero-padded decimal, as Go's layout component `2006` renders
years below 10000 (`time.Now()` years in practice). -/
def pad4 (n : Nat) : List Char :=
  [Nat.digitChar (n / 1000 % 10), Nat.digitChar (n / 100 % 10),
   Nat.digitChar (n / 10 % 10), Nat.digitChar (n % 10)]

/-- Embedding of `td.create_time.Format("2006-01-02 15:04:05")`
(`table-data.go` line 54), faithful on `DateTime.valid` values. -/
def formatDateTime (t : DateTime) : String :=
  String.mk (pad4 t.year ++ '-' :: pad2 t.month ++ '-' :: pad2 t.day ++
    ' ' :: pad2 t.hour ++ ':' :: pad2 t.minute ++ ':' :: pad2 t.second)

/-- `bigquery.NoDedupeID`: the sentinel insert ID requesting that best-effort
de-duplication be disabled for the row. -/
def NoDedupeID : String := "NoDedupeID"

/-- Embedding of `tableDataRecord.Save` (`table-data.go` lines 50-56):
the row mapping (association list in field order), the insert ID, and the
error result. -/
def tableDataRecord.Save (td : tableDataRecord) :
    List (String × BQValue) × String × Option Err :=
  ([("name", .str td.name), ("uuid", .int td.uuid),
    ("create_time", .str (formatDateTime td.create_time))],
   NoDedupeID, none)

/-- Is `c` a decimal digit? -/
def isDigitCh (c : Char) : Bool := '0' ≤ c && c ≤ '9'

/-- Does `s` consist of exactly the 19-character pattern
`YYYY-MM-DD HH:MM:SS` — four digits, dash, two digits, dash, two digits,
space, two digits, colon, two digits, colon, two digits — with no timezone
suffix and no fractional seconds? -/
def matchesDateTimePattern (s : String) : Bool :=
  match s.data with
  | [y1, y2, y3, y4, a1, o1, o2, a2, d1, d2, a3, h1, h2, a4, n1, n2, a5,
     c1, c2] =>
    isDigitCh y1 && isDigitCh y2 && isDigitCh y3 && isDigitCh y4 &&
    (a1 == '-') && isDigitCh o1 && isDigitCh o2 && (a2 == '-') &&
    isDigitCh d1 && isDigitCh d2 && (a3 == ' ') &&
    isDigitCh h1 && isDigitCh h2 && (a4 == ':') &&
    isDigitCh n1 && isDigitCh n2 && (a5 == ':') &&
    isDigitCh c1 && isDigitCh c2
  | _ => false

theorem isDigitCh_digitChar_mod (n : Nat) :
    isDigitCh (Nat.digitChar (n % 10)) = true := by
  have h : n % 10 < 10 := Nat.mod_lt _ (by decide)
  have hall : ∀ m, m < 10 → isDigitCh (Nat.digitChar m) = true := by decide
  exact hall _ h

theorem matchesDateTimePattern_format (t : DateTime) :
    matchesDateTimePattern (formatDateTime t) = true := by
  simp [matchesDateTimePattern, formatDateTime, pad4, pad2,
    isDigitCh_digitChar_mod]

/-! ## The Stream Driver and the two revisions of `main` -/

/-- Observable result of a run (or of `ExecuteLegacyStream`): the done
signal the producer was given, whether any cancel function for it was ever
invoked, whether the streaming client was constructed, how many times its
`Close` ran, the records forwarded to its `Write`, and how the run ended. -/
structure RunResult where
  producerDone : Nat → Bool
  producerCancelInvoked : Bool
  streamerCreated : Bool
  streamerCloseCount : Nat
  forwarded : List tableDataRecord
  outcome : Outcome

/-- Embedding of `ExecuteLegacyStream`, v0.2.2 (unnamed file lines 192-238).
`streamerErr` is the result of `bqwriter.NewStreamer`.  The generator gets
the `context.Background()` done signal; no cancel function exists, so none
is ever invoked.  `defer streamer.Close()` runs on every return path after
construction, including the write-error return. -/
def ExecuteLegacyStream (streamerErr : Option Err)
    (write : tableDataRecord → Option Err) (now : Nat → DateTime)
    (numberIterations : Nat) : RunResult :=
  match streamerErr with
  | some e => ⟨backgroundDone, false, false, 0, [], .err e⟩
  | none =>
    let g := newGenerator backgroundDone now numberIterations
    let r := streamLoop write g.emitted
    match r.2.2 with
    | some e => ⟨backgroundDone, false, true, 1, r.1, .err e⟩
    | none => ⟨backgroundDone, false, true, 1, r.1, .ok⟩

/-- Embedding of `main` after flag validation, v0.2.2 (unnamed file lines
117-142): client creation, `CreateBigQueryTable_v022`, then
`ExecuteLegacyStream`; every error is logged and turns into `os.Exit(1)`. -/
def mainRun_v022 (clientErr : Option Err) (overwrite : Bool) (env : ProvEnv)
    (streamerErr : Option Err) (write : tableDataRecord → Option Err)
    (now : Nat → DateTime) (numberIterations : Nat) : RunResult :=
  match clientErr with
  | some _ => ⟨backgroundDone, false, false, 0, [], .exited 1⟩
  | none =>
    match (CreateBigQueryTable_v022 overwrite env).2 with
    | .err _ => ⟨backgroundDone, false, false, 0, [], .exited 1⟩
    | .exited c => ⟨backgroundDone, false, false, 0, [], .exited c⟩
    | .ok =>
      let r := ExecuteLegacyStream streamerErr write now numberIterations
      match r.outcome with
      | .err _ => { r with outcome := .exited 1 }
      | o => { r with outcome := o }

/-- Embedding of `main` after flag validation, v0.1.0 (`main.go` lines
111-170).  The drain loop and streamer construction live directly in `main`;
on a write error `main` calls `os.Exit(1)`, and `os.Exit` does NOT run
deferred functions, so the deferred `bqWriter.Close()` (line 147) is
skipped on that path.  On normal completion `main` returns and the deferred
`Close` runs once. -/
def mainRun_v010 (clientErr : Option Err) (overwrite : Bool) (env : ProvEnv)
    (streamerErr : Option Err) (write : tableDataRecord → Option Err)
    (now : Nat → DateTime) (numberIterations : Nat) : RunResult :=
  match clientErr with
  | some _ => ⟨backgroundDone, false, false, 0, [], .exited 1⟩
  | none =>
    match (CreateBigQueryTable_v010 overwrite env).2 with
    | .err _ => ⟨backgroundDone, false, false, 0, [], .exited 1⟩
    | .exited c => ⟨backgroundDone, false, false, 0, [], .exited c⟩
    | .ok =>
      match streamerErr with
      | some _ => ⟨backgroundDone, false, false, 0, [], .exited 1⟩
      | none =>
        let g := newGenerator backgroundDone now numberIterations
        let r := streamLoop write g.emitted
        match r.2.2 with
        | some _ => ⟨backgroundDone, false, true, 0, r.1, .exited 1⟩
        | none => ⟨backgroundDone, false, true, 1, r.1, .exited 0⟩

/-! ## Concrete inputs used by witnesses and counterexamples -/

/-- A fixed wall clock for concrete evaluations. -/
def constNow : Nat → DateTime := fun _ => ⟨2021, 12, 31, 23, 59, 58⟩

/-- External environment in which the table already exists and the delete
and create calls would succeed. -/
def provEnvOk : ProvEnv := ⟨.found, none, none⟩

/-- External environment in which the table does not exist (metadata fetch
returns 404) and the create call would succeed. -/
def provEnvAbsent : ProvEnv := ⟨.notFound, none, none⟩

/-- A `Write` entry point that fails on every record. -/
def failingWrite : tableDataRecord → Option Err := fun _ => some "boom"

/-- A `Write` entry point that fails exactly on the record of index 2
(uuid 84) and succeeds elsewhere. -/
def writeFailsAt2 : tableDataRecord → Option Err :=
  fun r => if r.uuid = 84 then some "boom" else none

/-- A done signal that fires from emission attempt 2 onwards. -/
def doneFrom2 : Nat → Bool := fun i => decide (2 ≤ i)

/-- A `Write` entry point that succeeds on every record. -/
def okWrite : tableDataRecord → Option Err := fun _ => none

/-! ## Derived facts about the generator under the background context -/

theorem newGenerator_background_emitted (now : Nat → DateTime) (count : Nat) :
    (newGenerator backgroundDone now count).emitted =
      (List.range count).map (tableDataFor now) := by
  show genLoop backgroundDone now 0 count = _
  rw [genLoop_background now count 0, List.range_eq_range']

theorem newGenerator_background_getD (now : Nat → DateTime) (count i : Nat)
    (h : i < count) :
    (newGenerator backgroundDone now count).emitted.getD i default =
      tableDataFor now i := by
  have hl : i < (newGenerator backgroundDone now count).emitted.length := by
    rw [newGenerator_background_emitted]
    simpa using h
  simpa using genLoop_getD backgroundDone now count 0 i hl

/-! ## Claim theorems -/

/-- **C1**: for every `count ≥ 0`, the generator started by `newGenerator`
(under the program's never-cancelled background context) emits exactly
`count` records — the sequence is exactly the records for indices
`0..count-1` in that order — and closes its output channel; the record at
index `i` has id `i * 42` and name `pool[i mod 12]`; ids are strictly
increasing in index order; for `count = 0` the channel is closed with zero
emissions. -/
theorem newGenerator_emits_exactly_C1 (count : Nat) (now : Nat → DateTime) :
    (newGenerator backgroundDone now count).emitted =
      (List.range count).map (tableDataFor now) ∧
    (newGenerator backgroundDone now count).emitted.length = count ∧
    (newGenerator backgroundDone now count).closed = true ∧
    (∀ i, i < count →
      ((newGenerator backgroundDone now count).emitted.getD i default).uuid =
        (i : Int) * 42 ∧
      ((newGenerator backgroundDone now count).emitted.getD i default).name =
        randomNames.getD (i % 12) "") ∧
    (∀ i j, i < j → j < count →
      ((newGenerator backgroundDone now count).emitted.getD i default).uuid <
        ((newGenerator backgroundDone now count).emitted.getD j
          default).uuid) ∧
    (newGenerator backgroundDone now 0).emitted = [] := by
  refine ⟨newGenerator_background_emitted now count, ?_, rfl, ?_, ?_, rfl⟩
  · rw [newGenerator_background_emitted]
    simp
  · intro i h
    rw [newGenerator_background_getD now count i h]
    exact ⟨rfl, rfl⟩
  · intro i j hij hj
    rw [newGenerator_background_getD now count i (by omega),
      newGenerator_background_getD now count j hj]
    show (i : Int) * 42 < (j : Int) * 42
    omega

/-- Witness for C1 at `count = 3`. -/
theorem newGenerator_emits_exactly_C1_witness :
    ((newGenerator backgroundDone constNow 3).emitted.getD 1 default).uuid =
      (1 : Int) * 42 ∧
    ((newGenerator backgroundDone constNow 3).emitted.getD 1 default).name =
      randomNames.getD (1 % 12) "" ∧
    ((newGenerator backgroundDone constNow 3).emitted.getD 0 default).uuid <
      ((newGenerator backgroundDone constNow 3).emitted.getD 2
        default).uuid := by
  obtain ⟨-, -, -, h4, h5, -⟩ := newGenerator_emits_exactly_C1 3 constNow
  exact ⟨(h4 1 (by omega)).1, (h4 1 (by omega)).2, h5 0 2 (by omega) (by omega)⟩

/-- **C8**: under any done signal, the generator's channel is closed when
the producer stops; the emitted records are a prefix of the full sequence —
the record at emitted position `i` is exactly the record for index `i`, and
at most `count` are emitted, so no emitted record has an index outside
`[0, count)` — and if the cancellation signal fires at emission attempt `k`,
no record from index `k` onwards is sent (the producer stops within that
emission cycle). -/
theorem newGenerator_cancellation_C8 (done : Nat → Bool)
    (now : Nat → DateTime) (count : Nat) :
    (newGenerator done now count).closed = true ∧
    (newGenerator done now count).emitted.length ≤ count ∧
    (∀ i, i < (newGenerator done now count).emitted.length →
      (newGenerator done now count).emitted.getD i default =
        tableDataFor now i) ∧
    (∀ k, done k = true →
      (newGenerator done now count).emitted.length ≤ k) := by
  refine ⟨rfl, genLoop_length_le done now count 0, ?_, ?_⟩
  · intro i h
    simpa using genLoop_getD done now count 0 i h
  · intro k hk
    simpa using genLoop_stops done now k hk count 0 (Nat.zero_le k)

/-- Witness for C8: a signal firing from attempt 2 onwards stops a 5-record
generation after at most 2 emissions, with the channel closed. -/
theorem newGenerator_cancellation_C8_witness :
    (newGenerator doneFrom2 constNow 5).closed = true ∧
    (newGenerator doneFrom2 constNow 5).emitted.length ≤ 2 := by
  obtain ⟨h1, -, -, h4⟩ := newGenerator_cancellation_C8 doneFrom2 constNow 5
  exact ⟨h1, h4 2 rfl⟩

/-- **C9**: for every record whose timestamp is a value Go's clock can
produce (the faithful domain of the formatting embedding), `Save` returns a
row with exactly the three schema column names as keys, the `create_time`
cell being the formatted timestamp, which matches the exact
`YYYY-MM-DD HH:MM:SS` pattern (19 characters, no timezone suffix, no
fractional seconds), together with the `NoDedupeID` sentinel as insert ID
and a nil error. -/
theorem tableDataRecord_Save_C9 (td : tableDataRecord)
    (hval : td.create_time.valid) :
    td.Save.1.map Prod.fst = tableDataBigQuerySchema.map Prod.fst ∧
    td.Save.1.length = 3 ∧
    (td.Save.1.map Prod.fst).Nodup ∧
    td.Save.1.getD 2 ("", .str "") =
      ("create_time", .str (formatDateTime td.create_time)) ∧
    matchesDateTimePattern (formatDateTime td.create_time) = true ∧
    td.Save.2.1 = NoDedupeID ∧
    td.Save.2.2 = none := by
  refine ⟨rfl, rfl, ?_, rfl, matchesDateTimePattern_format _, rfl, rfl⟩
  show (["name", "uuid", "create_time"] : List String).Nodup
  decide

/-- Witness for C9 at a concrete record. -/
theorem tableDataRecord_Save_C9_witness :
    (⟨"Louis Green", 0, ⟨2021, 12, 31, 23, 59, 58⟩⟩ :
      tableDataRecord).create_time.valid ∧
    matchesDateTimePattern
      (formatDateTime (⟨2021, 12, 31, 23, 59, 58⟩ : DateTime)) = true ∧
    (⟨"Louis Green", 0, ⟨2021, 12, 31, 23, 59, 58⟩⟩ :
      tableDataRecord).Save.2.1 = NoDedupeID := by
  have hval : (⟨"Louis Green", 0, ⟨2021, 12, 31, 23, 59, 58⟩⟩ :
      tableDataRecord).create_time.valid := by decide
  obtain ⟨-, -, -, -, h5, h6, -⟩ :=
    tableDataRecord_Save_C9 ⟨"Louis Green", 0, ⟨2021, 12, 31, 23, 59, 58⟩⟩ hval
  exact ⟨hval, h5, h6⟩

/-- **C10**: `CalculateWorkerQueueSize` (v0.2.2) returns exactly 100 for
batch sizes ≥ 500, 50 on `[200, 500)`, 10 on `[50, 200)`, and 1 below 50;
it is monotone non-decreasing; v0.1.0 instead passes the batch size itself
as the worker queue size. -/
theorem CalculateWorkerQueueSize_C10 (b b2 : Int) :
    (b ≥ 500 → CalculateWorkerQueueSize b = 100) ∧
    (200 ≤ b ∧ b < 500 → CalculateWorkerQueueSize b = 50) ∧
    (50 ≤ b ∧ b < 200 → CalculateWorkerQueueSize b = 10) ∧
    (b < 50 → CalculateWorkerQueueSize b = 1) ∧
    (b ≤ b2 → CalculateWorkerQueueSize b ≤ CalculateWorkerQueueSize b2) ∧
    workerQueueSize_v010 b = b := by
  unfold CalculateWorkerQueueSize workerQueueSize_v010
  refine ⟨?_, ?_, ?_, ?_, ?_, rfl⟩ <;> intro h <;> split_ifs <;> omega

/-- Witness for C10 at batch sizes 250 and 600. -/
theorem CalculateWorkerQueueSize_C10_witness :
    CalculateWorkerQueueSize 250 = 50 ∧
    CalculateWorkerQueueSize 250 ≤ CalculateWorkerQueueSize 600 ∧
    workerQueueSize_v010 250 = 250 := by
  obtain ⟨-, h2, -, -, h5, h6⟩ := CalculateWorkerQueueSize_C10 250 600
  exact ⟨h2 (by omega), h5 (by omega), h6⟩

/-- **C2**: the three-case provisioning algorithm, in both revisions: a
non-existent table with `overwrite = false` is created with the fixed schema
followed by one 10-minute settle wait; an existing table with
`overwrite = true` is deleted, waited on, recreated, and waited on again
(two waits); an existing table with `overwrite = false` returns immediately
with no delete, no create and no wait. -/
theorem CreateBigQueryTable_C2 (env : ProvEnv) :
    (env.metaResult = .notFound → env.createResult = none →
      CreateBigQueryTable_v022 false env =
        ([.createTable tableDataBigQuerySchema, .sleepMinutes 10], .ok) ∧
      CreateBigQueryTable_v010 false env =
        ([.createTable tableDataBigQuerySchema, .sleepMinutes 10], .ok)) ∧
    (env.metaResult = .found → env.deleteResult = none →
        env.createResult = none →
      CreateBigQueryTable_v022 true env =
        ([.deleteTable, .sleepMinutes 10,
          .createTable tableDataBigQuerySchema, .sleepMinutes 10], .ok) ∧
      CreateBigQueryTable_v010 true env =
        ([.deleteTable, .sleepMinutes 10,
          .createTable tableDataBigQuerySchema, .sleepMinutes 10], .ok)) ∧
    (env.metaResult = .found →
      CreateBigQueryTable_v022 false env = ([], .ok) ∧
      CreateBigQueryTable_v010 false env = ([], .ok)) := by
  refine ⟨?_, ?_, ?_⟩
  · intro h1 h2
    constructor <;>
      simp [CreateBigQueryTable_v022, CreateBigQueryTable_v010, createPhase,
        h1, h2]
  · intro h1 h2 h3
    constructor <;>
      simp [CreateBigQueryTable_v022, CreateBigQueryTable_v010, createPhase,
        h1, h2, h3]
  · intro h1
    constructor <;>
      simp [CreateBigQueryTable_v022, CreateBigQueryTable_v010, h1]

/-- Witness for C2 at concrete environments. -/
theorem CreateBigQueryTable_C2_witness :
    CreateBigQueryTable_v022 false provEnvAbsent =
      ([.createTable tableDataBigQuerySchema, .sleepMinutes 10], .ok) ∧
    CreateBigQueryTable_v022 true provEnvOk =
      ([.deleteTable, .sleepMinutes 10, .createTable tableDataBigQuerySchema,
        .sleepMinutes 10], .ok) ∧
    CreateBigQueryTable_v022 false provEnvOk = ([], .ok) := by
  obtain ⟨h1, -, -⟩ := CreateBigQueryTable_C2 provEnvAbsent
  obtain ⟨-, h2, h3⟩ := CreateBigQueryTable_C2 provEnvOk
  exact ⟨(h1 rfl rfl).1, (h2 rfl rfl rfl).1, (h3 rfl).1⟩

/-- **C3** (code bug): out-of-range numeric flags and a missing `-d` do
print usage and exit 1 before any network activity, but an empty `-p`
(project), documented "(Required)" in the flag's own help text, is never
validated: validation proceeds, and the program goes on to create the
BigQuery client. -/
theorem validateFlags_C3_missing_project :
    validateFlags "" "my_dataset" 5 100 1 = .proceed ∧
    validateFlags "" "" 5 100 1 = .usageExit 1 ∧
    validateFlags "proj" "ds" 0 100 1 = .usageExit 1 ∧
    validateFlags "proj" "ds" 101 100 1 = .usageExit 1 ∧
    validateFlags "proj" "ds" 5 0 1 = .usageExit 1 ∧
    validateFlags "proj" "ds" 5 100000001 1 = .usageExit 1 ∧
    validateFlags "proj" "ds" 5 100 0 = .usageExit 1 ∧
    validateFlags "proj" "ds" 5 100 50001 = .usageExit 1 := by
  refine ⟨?_, ?_, ?_, ?_, ?_, ?_, ?_, ?_⟩ <;> decide

/-- **C4** (code bug in v0.1.0): on an existing table with overwrite
requested and `table.Delete` failing, v0.1.0 discards the error and
proceeds to the settle wait and re-creation, returning success, while
v0.2.2 — matching the claim — surfaces the failure and aborts (exit 1)
without waiting or recreating. -/
theorem CreateBigQueryTable_C4_delete_error :
    CreateBigQueryTable_v010 true ⟨.found, some "delete failed", none⟩ =
      ([.deleteTable, .sleepMinutes 10, .createTable tableDataBigQuerySchema,
        .sleepMinutes 10], .ok) ∧
    CreateBigQueryTable_v022 true ⟨.found, some "delete failed", none⟩ =
      ([.deleteTable], .exited 1) :=
  ⟨rfl, rfl⟩

/-! ## Write-failure behaviour of the drain loop -/

theorem streamLoop_background_fail (now : Nat → DateTime)
    (write : tableDataRecord → Option Err) (count k : Nat) (e : Err)
    (hk : k < count)
    (hfail : write (tableDataFor now k) = some e)
    (hok : ∀ j, j < k → write (tableDataFor now j) = none) :
    streamLoop write (newGenerator backgroundDone now count).emitted =
      ((List.range (k + 1)).map (tableDataFor now), k, some e) := by
  obtain ⟨m, hm⟩ : ∃ m, count = (k + 1) + m := ⟨count - (k + 1), by omega⟩
  subst hm
  have hl1 : ∀ d ∈ (List.range k).map (tableDataFor now), write d = none := by
    intro d hd
    obtain ⟨j, hj, rfl⟩ := List.mem_map.1 hd
    exact hok j (List.mem_range.1 hj)
  have hsplit : (List.range (k + 1 + m)).map (tableDataFor now) =
      (List.range k).map (tableDataFor now) ++
        tableDataFor now k ::
          (List.range m).map (fun x => tableDataFor now (k + 1 + x)) := by
    rw [List.range_add, List.map_append, List.map_map, List.range_succ,
      List.map_append, List.append_assoc]
    simp [Function.comp]
  rw [newGenerator_background_emitted, hsplit,
    streamLoop_append_ok write _ _ hl1,
    streamLoop_fail_head write _ _ e hfail]
  simp [List.range_succ]

/-- **C5**: if the external write call fails on record index `k` (with
`k < count - 1`) and succeeded on all earlier records, the run aborts with
that error: the records forwarded to the write entry point are exactly those
of indices `0..k`, record `k + 1` is never forwarded, and the failed record
was forwarded exactly once (no retry at this layer). -/
theorem ExecuteLegacyStream_write_error_C5 (count k : Nat)
    (now : Nat → DateTime) (write : tableDataRecord → Option Err) (e : Err)
    (hk : k + 1 < count)
    (hfail : write (tableDataFor now k) = some e)
    (hok : ∀ j, j < k → write (tableDataFor now j) = none) :
    (ExecuteLegacyStream none write now count).outcome = .err e ∧
    (ExecuteLegacyStream none write now count).forwarded =
      (List.range (k + 1)).map (tableDataFor now) ∧
    tableDataFor now (k + 1) ∉
      (ExecuteLegacyStream none write now count).forwarded ∧
    (ExecuteLegacyStream none write now count).forwarded.count
      (tableDataFor now k) = 1 := by
  have hsl := streamLoop_background_fail now write count k e (by omega)
    hfail hok
  have hE : ExecuteLegacyStream none write now count =
      ⟨backgroundDone, false, true, 1,
        (List.range (k + 1)).map (tableDataFor now), .err e⟩ := by
    simp [ExecuteLegacyStream, hsl]
  have hnot : tableDataFor now (k + 1) ∉
      (List.range (k + 1)).map (tableDataFor now) := by
    intro hmem
    obtain ⟨j, hj, hEq⟩ := List.mem_map.1 hmem
    have hj2 : j < k + 1 := List.mem_range.1 hj
    have huuid := congrArg tableDataRecord.uuid hEq
    simp [tableDataFor, NewTableData] at huuid
    omega
  have hcnt : ((List.range (k + 1)).map (tableDataFor now)).count
      (tableDataFor now k) = 1 := by
    rw [List.range_succ, List.map_append, List.count_append]
    have h0 : ((List.range k).map (tableDataFor now)).count
        (tableDataFor now k) = 0 := by
      rw [List.count_eq_zero]
      intro hmem
      obtain ⟨j, hj, hEq⟩ := List.mem_map.1 hmem
      have hj2 : j < k := List.mem_range.1 hj
      have huuid := congrArg tableDataRecord.uuid hEq
      simp [tableDataFor, NewTableData] at huuid
      omega
    rw [h0]
    simp
  rw [hE]
  exact ⟨rfl, rfl, hnot, hcnt⟩

/-- Witness for C5: a write failing on index 2 of a 5-record run. -/
theorem ExecuteLegacyStream_write_error_C5_witness :
    (ExecuteLegacyStream none writeFailsAt2 constNow 5).outcome =
      .err "boom" ∧
    tableDataFor constNow 3 ∉
      (ExecuteLegacyStream none writeFailsAt2 constNow 5).forwarded ∧
    (ExecuteLegacyStream none writeFailsAt2 constNow 5).forwarded.count
      (tableDataFor constNow 2) = 1 := by
  obtain ⟨h1, -, h3, h4⟩ :=
    ExecuteLegacyStream_write_error_C5 5 2 constNow writeFailsAt2 "boom"
      (by omega) (by decide) (by decide)
  exact ⟨h1, h3, h4⟩

/-- **C6** (counterexample to the claim as stated): with the table present,
overwrite off, and a `Write` failing on the first record, the v0.2.2 run
aborts with exit 1 — yet the done signal handed to the producer is the
never-firing `context.Background()` signal, no cancel function was ever
invoked (none exists in either revision), and the generator under that very
signal still emits all 3 records.  The remaining generation is therefore
not aborted via triggering of a cancellation signal. -/
theorem mainRun_C6_counterexample :
    (mainRun_v022 none false provEnvOk none failingWrite constNow 3).outcome =
      .exited 1 ∧
    (mainRun_v022 none false provEnvOk none failingWrite constNow
      3).producerCancelInvoked = false ∧
    (mainRun_v022 none false provEnvOk none failingWrite constNow
      3).producerDone = backgroundDone ∧
    backgroundDone 0 = false ∧ backgroundDone 1 = false ∧
    backgroundDone 2 = false ∧
    (newGenerator backgroundDone constNow 3).emitted.length = 3 := by
  refine ⟨?_, rfl, rfl, rfl, rfl, rfl, ?_⟩ <;> rfl

/-- **C6** (amended): when the external write call fails, the run aborts —
v0.2.2 returns the error from `ExecuteLegacyStream` (closing the streamer on
the way out) and `main` exits 1; v0.1.0 exits 1 directly — but no
cancellation of the producer occurs: the producer's done signal is the
`context.Background()` signal, which never fires, and no cancel function is
ever invoked; the producer goroutine stops only because the process
terminates. -/
theorem mainRun_write_error_no_cancellation_C6 (env : ProvEnv)
    (write : tableDataRecord → Option Err) (now : Nat → DateTime)
    (n : Nat) (e : Err)
    (henv : env.metaResult = .found)
    (hfail : (streamLoop write
      (newGenerator backgroundDone now n).emitted).2.2 = some e) :
    (mainRun_v022 none false env none write now n).outcome = .exited 1 ∧
    (mainRun_v022 none false env none write now n).producerCancelInvoked =
      false ∧
    (mainRun_v022 none false env none write now n).producerDone =
      backgroundDone ∧
    (mainRun_v010 none false env none write now n).outcome = .exited 1 ∧
    (mainRun_v010 none false env none write now n).producerCancelInvoked =
      false ∧
    (mainRun_v010 none false env none write now n).producerDone =
      backgroundDone ∧
    (∀ i, backgroundDone i = false) := by
  have hprov022 : CreateBigQueryTable_v022 false env = ([], .ok) := by
    simp [CreateBigQueryTable_v022, henv]
  have hprov010 : CreateBigQueryTable_v010 false env = ([], .ok) := by
    simp [CreateBigQueryTable_v010, henv]
  have hE : ExecuteLegacyStream none write now n =
      ⟨backgroundDone, false, true, 1,
        (streamLoop write (newGenerator backgroundDone now n).emitted).1,
        .err e⟩ := by
    simp [ExecuteLegacyStream, hfail]
  have h022 : mainRun_v022 none false env none write now n =
      ⟨backgroundDone, false, true, 1,
        (streamLoop write (newGenerator backgroundDone now n).emitted).1,
        .exited 1⟩ := by
    simp [mainRun_v022, hprov022, hE]
  have h010 : mainRun_v010 none false env none write now n =
      ⟨backgroundDone, false, true, 0,
        (streamLoop write (newGenerator backgroundDone now n).emitted).1,
        .exited 1⟩ := by
    simp [mainRun_v010, hprov010, hfail]
  rw [h022, h010]
  exact ⟨rfl, rfl, rfl, rfl, rfl, rfl, fun i => rfl⟩

/-- Witness for the amended C6 at a concrete run. -/
theorem mainRun_write_error_no_cancellation_C6_witness :
    (mainRun_v022 none false provEnvOk none failingWrite constNow 2).outcome =
      .exited 1 ∧
    (mainRun_v022 none false provEnvOk none failingWrite constNow
      2).producerCancelInvoked = false := by
  obtain ⟨h1, h2, -, -, -, -, -⟩ :=
    mainRun_write_error_no_cancellation_C6 provEnvOk failingWrite constNow 2
      "boom" rfl (by decide)
  exact ⟨h1, h2⟩

/-- **C7** (code bug in v0.1.0): with the streamer created and the first
write failing, the v0.1.0 `main` calls `os.Exit(1)` inside the drain loop;
`os.Exit` does not run deferred functions, so the deferred
`bqWriter.Close()` never runs and the connection is created but released
zero times.  v0.2.2 on the same input releases it exactly once (the claim
holds there), and v0.1.0 does release exactly once on normal completion. -/
theorem mainRun_C7_v010_close_skipped :
    (mainRun_v010 none false provEnvOk none failingWrite constNow
      3).streamerCreated = true ∧
    (mainRun_v010 none false provEnvOk none failingWrite constNow
      3).streamerCloseCount = 0 ∧
    (mainRun_v010 none false provEnvOk none failingWrite constNow
      3).outcome = .exited 1 ∧
    (mainRun_v022 none false provEnvOk none failingWrite constNow
      3).streamerCreated = true ∧
    (mainRun_v022 none false provEnvOk none failingWrite constNow
      3).streamerCloseCount = 1 ∧
    (mainRun_v010 none false provEnvOk none okWrite constNow
      3).streamerCloseCount = 1 ∧
    (mainRun_v010 none false provEnvOk none okWrite constNow 3).outcome =
      .exited 0 ∧
    (mainRun_v022 none false provEnvOk none okWrite constNow
      3).streamerCloseCount = 1 := by
  refine ⟨?_, ?_, ?_, ?_, ?_, ?_, ?_, ?_⟩ <;> rfl
